import Mathlib

/-!
Verification development for src/skills/cryptocompare/fetch_news.py.

The file embeds the tool CryptoCompareFetchNews shallowly: Python values
that can appear in a decoded JSON response are the inductive type PyVal,
a raised Python exception is abstracted to the text that str(e) would
produce (structure PyExc), and every fallible step returns
Except PyExc. The external collaborators declared outside this file
(skills.cryptocompare.api.fetch_news, the base-class rate limiter
check_rate_limit and the context resolved from the RunnableConfig) are
parameters of the environment structure Env, exactly as the design
document treats them: black boxes with contracts
(api_key, token, timestamp) -> JSON and agent_id -> (limited, message).

The coroutine _arun of the source is the function _arunT below; it also
returns the list of calls made to the remote fetch function, so that
claims about "no network call is made" and about the timestamp argument
are statable. _arun is its first projection.
-/

/-- Python value as it can occur in a decoded JSON response or in a
configuration map. Floats and booleans are not modelled; the provider
fields exercised by the tool are strings and integers. -/
inductive PyVal where
  | none
  | int (n : Int)
  | str (s : String)
  | list (xs : List PyVal)
  | dict (entries : List (String × PyVal))

/-- Python exception, abstracted to the text that str(e) yields. The
blanket `except Exception as e` of the source only ever observes this
text. -/
structure PyExc where
  msg : String
deriving DecidableEq

/-- Name of the Python type of a value, as it appears in TypeError and
AttributeError messages. -/
def PyVal.typeName : PyVal → String
  | .none => "NoneType"
  | .int _ => "int"
  | .str _ => "str"
  | .list _ => "list"
  | .dict _ => "dict"

mutual

/-- Python repr of a value (used by str() on containers). -/
def pyRepr : PyVal → String
  | .none => "None"
  | .int n => toString n
  | .str s => "\x27" ++ s ++ "\x27"
  | .list xs => "[" ++ pyReprList xs ++ "]"
  | .dict es => "\x7b" ++ pyReprDict es ++ "\x7d"

/-- Comma-joined reprs of the elements of a list. -/
def pyReprList : List PyVal → String
  | [] => ""
  | [x] => pyRepr x
  | x :: rest => pyRepr x ++ ", " ++ pyReprList rest

/-- Comma-joined reprs of the entries of a dict. -/
def pyReprDict : List (String × PyVal) → String
  | [] => ""
  | [(k, v)] => "\x27" ++ k ++ "\x27: " ++ pyRepr v
  | (k, v) :: rest => "\x27" ++ k ++ "\x27: " ++ pyRepr v ++ ", " ++ pyReprDict rest

end

/-- Python builtin str(), as applied at `id=str(article["id"])`
(fetch_news.py line 94). On a str it is the identity; on every other
value it agrees with repr up to the quoting of nested strings, which is
what repr-based printing gives here. -/
def pyStr : PyVal → String
  | .str s => s
  | v => pyRepr v

/-- Python membership test `k in v` for a string k, as used by
`"Data" not in result` (fetch_news.py line 86). Dicts test key
membership, lists test element equality with the string, strings test
substring containment; other values raise TypeError. -/
def pyContains (v : PyVal) (k : String) : Except PyExc Bool :=
  match v with
  | .dict es => Except.ok (List.lookup k es).isSome
  | .list xs =>
      Except.ok (xs.any fun x =>
        match x with
        | .str s => s == k
        | _ => false)
  | .str s => Except.ok (if k = "" then true else (s.splitOn k).length > 1)
  | v => Except.error { msg := "argument of type \x27" ++ v.typeName ++ "\x27 is not iterable" }

/-- Python subscript v[k] with a string key, as used by
`result["Data"]` and `article["id"]` etc. A dict without the key raises
KeyError (whose str is the quoted key); non-dict values raise
TypeError. -/
def PyVal.getItem (v : PyVal) (k : String) : Except PyExc PyVal :=
  match v with
  | .dict es =>
      match List.lookup k es with
      | some x => Except.ok x
      | Option.none => Except.error { msg := "\x27" ++ k ++ "\x27" }
  | .str _ => Except.error { msg := "string indices must be integers, not \x27str\x27" }
  | .list _ => Except.error { msg := "list indices must be integers or slices, not str" }
  | v => Except.error { msg := "\x27" ++ v.typeName ++ "\x27 object is not subscriptable" }

/-- Python iteration `for article in v`: lists yield their elements,
strings their characters, dicts their keys; other values raise
TypeError. -/
def pyIter (v : PyVal) : Except PyExc (List PyVal) :=
  match v with
  | .list xs => Except.ok xs
  | .str s => Except.ok (s.data.map fun c => PyVal.str (String.singleton c))
  | .dict es => Except.ok (es.map fun e => PyVal.str e.1)
  | v => Except.error { msg := "\x27" ++ v.typeName ++ "\x27 object is not iterable" }

/-- Python `s.split("|")` (fetch_news.py line 99): cut the string at
every pipe character; n pipes yield n + 1 pieces, so the empty string
yields the one-element list containing the empty string. Defined by
structural recursion over the characters so that it matches the Python
semantics of str.split with a non-empty separator. -/
def pySplit (s : String) : List String :=
  s.data.foldr
    (fun c acc =>
      if c = '|' then "" :: acc
      else
        match acc with
        | h :: t => (String.singleton c ++ h) :: t
        | [] => [String.singleton c])
    [""]

/-- Model of the pydantic NewsArticle record (fetch_news.py lines
19 to 29). -/
structure NewsArticle where
  id : String
  title : String
  body : String
  published_at : Int
  url : String
  source : String
  categories : List String
deriving DecidableEq

/-- Model of the pydantic output record (fetch_news.py lines 31 to 37):
articles defaults to the empty list and error defaults to absent. -/
structure CryptoCompareFetchNewsOutput where
  articles : List NewsArticle := []
  error : Option String := Option.none
deriving DecidableEq

/-- Pydantic validation of a str field in lax mode: only a Python str
is accepted. -/
def asStr : PyVal → Option String
  | .str s => some s
  | _ => Option.none

/-- Digits of a numeric literal to a natural number; Option.none on the
empty list or a non-digit character. -/
def parseNatDigits (cs : List Char) : Option Nat :=
  match cs with
  | [] => Option.none
  | _ =>
      cs.foldl
        (fun acc c =>
          acc.bind fun n => if c.isDigit then some (n * 10 + (c.toNat - 48)) else Option.none)
        (some 0)

/-- Pydantic validation of an int field in lax mode: a Python int is
accepted, and a string holding an optionally signed decimal literal is
coerced (approximating the pydantic numeric-string coercion); anything
else is rejected. -/
def asInt : PyVal → Option Int
  | .int n => some n
  | .str s =>
      (match s.data with
       | '-' :: rest => (parseNatDigits rest).map fun n => -(n : Int)
       | '+' :: rest => (parseNatDigits rest).map fun n => (n : Int)
       | cs => (parseNatDigits cs).map fun n => (n : Int))
  | _ => Option.none

/-- Comma-joined list of strings (helper for error texts). -/
def joinComma : List String → String
  | [] => ""
  | [x] => x
  | x :: rest => x ++ ", " ++ joinComma rest

/-- Names of the NewsArticle fields whose raw values fail pydantic
validation, in field declaration order. The id and categories arguments
are constructed as a str and a list of strs before the record is built,
so they always validate. -/
def validationFailures (titlev bodyv pubv urlv sourcev : PyVal) : List String :=
  (if (asStr titlev).isSome then [] else ["title"]) ++
  (if (asStr bodyv).isSome then [] else ["body"]) ++
  (if (asInt pubv).isSome then [] else ["published_at"]) ++
  (if (asStr urlv).isSome then [] else ["url"]) ++
  (if (asStr sourcev).isSome then [] else ["source"])

/-- Pydantic ValidationError for NewsArticle, abstracted to a text that
carries the failure count and the failing field names. The exact pydantic
rendering is library-internal; only the presence of the error and its
being a catchable exception matter to the tool. -/
def pydanticError (fields : List String) : PyExc :=
  { msg :=
      toString fields.length ++ " validation error" ++
      (if fields.length == 1 then "" else "s") ++
      " for NewsArticle: " ++ joinComma fields }

/-- One element of the comprehension at fetch_news.py lines 92 to 103:
read the seven raw fields in keyword order (a missing key raises
KeyError), apply str() to the id, split the categories string (a
non-str categories value raises AttributeError at .split), then let
pydantic validate the remaining fields. -/
def parseArticle (article : PyVal) : Except PyExc NewsArticle := do
  let idv ← article.getItem "id"
  let idS := pyStr idv
  let titlev ← article.getItem "title"
  let bodyv ← article.getItem "body"
  let pubv ← article.getItem "published_on"
  let urlv ← article.getItem "url"
  let sourcev ← article.getItem "source"
  let catsv ← article.getItem "categories"
  let catsS ←
    match catsv with
    | .str s => Except.ok s
    | v => Except.error { msg := "\x27" ++ v.typeName ++ "\x27 object has no attribute \x27split\x27" }
  let cats := pySplit catsS
  match asStr titlev, asStr bodyv, asInt pubv, asStr urlv, asStr sourcev with
  | some t, some b, some p, some u, some s =>
      Except.ok
        { id := idS, title := t, body := b, published_at := p,
          url := u, source := s, categories := cats }
  | _, _, _, _, _ =>
      Except.error (pydanticError (validationFailures titlev bodyv pubv urlv sourcev))

/-- The list comprehension at fetch_news.py lines 91 to 104: map the
raw elements in order, aborting at the first element whose mapping
raises. -/
def mapArticles : List PyVal → Except PyExc (List NewsArticle)
  | [] => Except.ok []
  | a :: rest =>
      match parseArticle a with
      | Except.error e => Except.error e
      | Except.ok r =>
          match mapArticles rest with
          | Except.error e => Except.error e
          | Except.ok rs => Except.ok (r :: rs)

/-- Handling of the decoded remote response (fetch_news.py lines 85 to
104): test `"Data" not in result`, then subscript, iterate and map. -/
def processResult (result : PyVal) : Except PyExc CryptoCompareFetchNewsOutput :=
  match pyContains result "Data" with
  | Except.error e => Except.error e
  | Except.ok false =>
      Except.ok { error := some "Invalid response format from CryptoCompare API" }
  | Except.ok true =>
      match result.getItem "Data" with
      | Except.error e => Except.error e
      | Except.ok dataV =>
          match pyIter dataV with
          | Except.error e => Except.error e
          | Except.ok items =>
              match mapArticles items with
              | Except.error e => Except.error e
              | Except.ok articles => Except.ok { articles := articles }

/-- Agent context as resolved by context_from_config: an agent identity
and a configuration map. Modelled from the spec: the context type lives
in the base module outside this file; the design document says the
context carries an agent identity and a configuration map containing at
least an API key. -/
structure AgentContext where
  agentId : String
  config : List (String × PyVal)

/-- Record of one invocation of the remote fetch function, holding the
three arguments passed at fetch_news.py line 83. -/
structure FetchCall where
  api_key : PyVal
  token : String
  timestamp : Int

/-- Environment of one _arun invocation. Modelled from the spec: the
remote fetch (skills.cryptocompare.api.fetch_news) and the rate limiter
(check_rate_limit of the base class) are external black boxes, so they
are parameters here; either may raise, which is the error case of
Except. The field now is the integer Unix time that int(time.time())
reads during the call. -/
structure Env where
  context : Option AgentContext
  check_rate_limit : Option String → Except PyExc (Bool × String)
  fetch_news : PyVal → String → Int → Except PyExc PyVal
  now : Int

/-- Body of the try block of _arun (fetch_news.py lines 71 to 104),
together with the list of calls made to the remote fetch function.
Resolving the identity uses `context.agent.id if context else None`;
note that the later expression `context.config.get("api_key")`
dereferences context unconditionally, so an absent context raises
AttributeError there. -/
def _arunBody (env : Env) (token : String) :
    Except PyExc CryptoCompareFetchNewsOutput × List FetchCall :=
  let agent_id := Option.map AgentContext.agentId env.context
  match env.check_rate_limit agent_id with
  | Except.error e => (Except.error e, [])
  | Except.ok (is_rate_limited, error_msg) =>
      if is_rate_limited then
        (Except.ok { error := some error_msg }, [])
      else
        let timestamp := env.now
        match env.context with
        | Option.none =>
            (Except.error { msg := "\x27NoneType\x27 object has no attribute \x27config\x27" }, [])
        | some ctx =>
            let api_key := (List.lookup "api_key" ctx.config).getD PyVal.none
            match env.fetch_news api_key token timestamp with
            | Except.error e =>
                (Except.error e, [{ api_key := api_key, token := token, timestamp := timestamp }])
            | Except.ok result =>
                (processResult result, [{ api_key := api_key, token := token, timestamp := timestamp }])

/-- The blanket `except Exception as e` of _arun (fetch_news.py lines
106 to 107): an escaping exception becomes an output whose error field
is str(e). -/
def catchOut : Except PyExc CryptoCompareFetchNewsOutput → CryptoCompareFetchNewsOutput
  | Except.ok out => out
  | Except.error e => { error := some e.msg }

/-- The coroutine _arun with its fetch-call trace. The extra keyword
arguments of the Python signature are accepted and, as in the source,
never read. -/
def _arunT (env : Env) (token : String) (_kwargs : List (String × PyVal)) :
    CryptoCompareFetchNewsOutput × List FetchCall :=
  (catchOut (_arunBody env token).1, (_arunBody env token).2)

/-- The value _arun returns to the caller. -/
def _arun (env : Env) (token : String) (kwargs : List (String × PyVal)) :
    CryptoCompareFetchNewsOutput :=
  (_arunT env token kwargs).1

/-- First fixture element of a well-formed provider response. -/
def newsItem1 : PyVal :=
  PyVal.dict
    [("id", PyVal.int 101), ("title", PyVal.str "T1"), ("body", PyVal.str "B1"),
     ("published_on", PyVal.int 1700000001), ("url", PyVal.str "https://n/1"),
     ("source", PyVal.str "S1"), ("categories", PyVal.str "Blockchain|Mining|Trading")]

/-- Second fixture element. -/
def newsItem2 : PyVal :=
  PyVal.dict
    [("id", PyVal.str "a102"), ("title", PyVal.str "T2"), ("body", PyVal.str "B2"),
     ("published_on", PyVal.int 1700000002), ("url", PyVal.str "https://n/2"),
     ("source", PyVal.str "S2"), ("categories", PyVal.str "BTC")]

/-- Third fixture element. -/
def newsItem3 : PyVal :=
  PyVal.dict
    [("id", PyVal.int 103), ("title", PyVal.str "T3"), ("body", PyVal.str "B3"),
     ("published_on", PyVal.int 1700000003), ("url", PyVal.str "https://n/3"),
     ("source", PyVal.str "S3"), ("categories", PyVal.str "")]

/-- Mapped record for the first fixture element. -/
def newsRec1 : NewsArticle :=
  { id := "101", title := "T1", body := "B1", published_at := 1700000001,
    url := "https://n/1", source := "S1", categories := ["Blockchain", "Mining", "Trading"] }

/-- Mapped record for the second fixture element. -/
def newsRec2 : NewsArticle :=
  { id := "a102", title := "T2", body := "B2", published_at := 1700000002,
    url := "https://n/2", source := "S2", categories := ["BTC"] }

/-- Mapped record for the third fixture element. -/
def newsRec3 : NewsArticle :=
  { id := "103", title := "T3", body := "B3", published_at := 1700000003,
    url := "https://n/3", source := "S3", categories := [""] }

/-- Well-formed three-article provider response used by the witnesses. -/
def fixtureResponse : PyVal :=
  PyVal.dict
    [("Type", PyVal.int 100),
     ("Data", PyVal.list [newsItem1, newsItem2, newsItem3])]

/-- Environment whose limiter admits the call and whose fetch returns
the three-article fixture. -/
def envOk : Env :=
  { context := some { agentId := "agent-1", config := [("api_key", PyVal.str "k")] },
    check_rate_limit := fun _ => Except.ok (false, ""),
    fetch_news := fun _ _ _ => Except.ok fixtureResponse,
    now := 1700000000 }

/-- A successful comprehension maps the raw elements pointwise and in
order. -/
theorem mapArticles_forall2 (xs : List PyVal) (ys : List NewsArticle)
    (h : mapArticles xs = Except.ok ys) :
    List.Forall₂ (fun a r => parseArticle a = Except.ok r) xs ys := by
  induction xs generalizing ys with
  | nil =>
      simp only [mapArticles, Except.ok.injEq] at h
      subst h
      exact List.Forall₂.nil
  | cons a rest ih =>
      simp only [mapArticles] at h
      cases hp : parseArticle a with
      | error e => rw [hp] at h; exact absurd h (by simp)
      | ok r =>
          rw [hp] at h
          cases hm : mapArticles rest with
          | error e => rw [hm] at h; exact absurd h (by simp)
          | ok rs =>
              rw [hm] at h
              simp only [Except.ok.injEq] at h
              subst h
              exact List.Forall₂.cons hp (ih rs hm)

/-- A raw element whose mapping raises makes the whole comprehension
raise. -/
theorem mapArticles_error_of_mem (xs : List PyVal) (a : PyVal) (e : PyExc)
    (hmem : a ∈ xs) (hfail : parseArticle a = Except.error e) :
    ∃ e2, mapArticles xs = Except.error e2 := by
  induction xs with
  | nil => cases hmem
  | cons b rest ih =>
      cases hmem with
      | head =>
          exact ⟨e, by simp only [mapArticles]; rw [hfail]⟩
      | tail _ hmem2 =>
          cases hp : parseArticle b with
          | error e3 => exact ⟨e3, by simp only [mapArticles]; rw [hp]⟩
          | ok r =>
              obtain ⟨e2, hm⟩ := ih hmem2
              exact ⟨e2, by simp only [mapArticles]; rw [hp, hm]⟩

/-- Processing a dict response whose Data key holds a list that maps
cleanly yields the success output. -/
theorem processResult_dict_ok (kvs : List (String × PyVal)) (items : List PyVal)
    (arts : List NewsArticle)
    (hdata : List.lookup "Data" kvs = some (PyVal.list items))
    (hmap : mapArticles items = Except.ok arts) :
    processResult (PyVal.dict kvs) = Except.ok { articles := arts, error := Option.none } := by
  simp [processResult, pyContains, hdata, PyVal.getItem, pyIter, hmap]

/-- Processing a dict response whose Data key holds a list whose mapping
raises propagates that exception. -/
theorem processResult_dict_err (kvs : List (String × PyVal)) (items : List PyVal)
    (e : PyExc)
    (hdata : List.lookup "Data" kvs = some (PyVal.list items))
    (hmap : mapArticles items = Except.error e) :
    processResult (PyVal.dict kvs) = Except.error e := by
  simp [processResult, pyContains, hdata, PyVal.getItem, pyIter, hmap]

/-- Processing a dict response without a Data key yields the fixed
format-error output. -/
theorem processResult_dict_nodata (kvs : List (String × PyVal))
    (hdata : List.lookup "Data" kvs = Option.none) :
    processResult (PyVal.dict kvs) =
      Except.ok { articles := [], error := some "Invalid response format from CryptoCompare API" } := by
  simp [processResult, pyContains, hdata]

/-- With a present context and an admitting limiter, the body reaches
the remote fetch with the configured key, the token and the current
time, and hands its result to processResult. -/
theorem arunBody_fetch (env : Env) (token : String) (ctx : AgentContext) (m : String)
    (hctx : env.context = some ctx)
    (hrl : env.check_rate_limit (some ctx.agentId) = Except.ok (false, m)) :
    _arunBody env token =
      (Except.bind
         (env.fetch_news ((List.lookup "api_key" ctx.config).getD PyVal.none) token env.now)
         processResult,
       [{ api_key := (List.lookup "api_key" ctx.config).getD PyVal.none,
          token := token, timestamp := env.now }]) := by
  cases hf : env.fetch_news ((List.lookup "api_key" ctx.config).getD PyVal.none) token env.now with
  | error e => simp [_arunBody, hctx, hrl, hf, Except.bind]
  | ok r => simp [_arunBody, hctx, hrl, hf, Except.bind]

/-- With a limiter that reports limited, the body short-circuits to the
limiter message and records no fetch call. -/
theorem arunBody_limited (env : Env) (token : String) (msg : String)
    (hrl : env.check_rate_limit (Option.map AgentContext.agentId env.context)
      = Except.ok (true, msg)) :
    _arunBody env token = (Except.ok { articles := [], error := some msg }, []) := by
  simp [_arunBody, hrl]

/-- C1: for a valid token and a non-rate-limited identity, a well-formed
response whose Data field holds the raw items yields the success output
whose articles are exactly the in-order elementwise mapping of the Data
array: as many articles as data entries, in the same order. -/
theorem arun_success_preserves_data
    (env : Env) (token : String) (kwargs : List (String × PyVal))
    (ctx : AgentContext) (m : String) (kvs : List (String × PyVal))
    (items : List PyVal) (arts : List NewsArticle)
    (hctx : env.context = some ctx)
    (hrl : env.check_rate_limit (some ctx.agentId) = Except.ok (false, m))
    (hfetch : env.fetch_news ((List.lookup "api_key" ctx.config).getD PyVal.none) token env.now
      = Except.ok (PyVal.dict kvs))
    (hdata : List.lookup "Data" kvs = some (PyVal.list items))
    (hmap : mapArticles items = Except.ok arts) :
    _arun env token kwargs = { articles := arts, error := Option.none } ∧
    arts.length = items.length ∧
    List.Forall₂ (fun a r => parseArticle a = Except.ok r) items arts := by
  have hb := arunBody_fetch env token ctx m hctx hrl
  have h1 : _arun env token kwargs = { articles := arts, error := Option.none } := by
    unfold _arun _arunT
    rw [hb]
    simp [Except.bind, hfetch, processResult_dict_ok kvs items arts hdata hmap, catchOut]
  exact ⟨h1, ((mapArticles_forall2 items arts hmap).length_eq).symm,
    mapArticles_forall2 items arts hmap⟩

/-- Witness for C1 at the three-article fixture response. -/
theorem arun_success_preserves_data_witness :
    _arun envOk "BTC" [] =
      { articles := [newsRec1, newsRec2, newsRec3], error := Option.none } ∧
    ([newsRec1, newsRec2, newsRec3] : List NewsArticle).length =
      ([newsItem1, newsItem2, newsItem3] : List PyVal).length ∧
    List.Forall₂ (fun a r => parseArticle a = Except.ok r)
      [newsItem1, newsItem2, newsItem3] [newsRec1, newsRec2, newsRec3] :=
  arun_success_preserves_data envOk "BTC" []
    { agentId := "agent-1", config := [("api_key", PyVal.str "k")] } ""
    [("Type", PyVal.int 100), ("Data", PyVal.list [newsItem1, newsItem2, newsItem3])]
    [newsItem1, newsItem2, newsItem3] [newsRec1, newsRec2, newsRec3]
    rfl rfl rfl rfl rfl

/-- C2: an invocation that the limiter reports as limited returns the
limiter message verbatim as the error of an otherwise empty output, and
the fetch-call trace is empty: the remote fetch is never invoked. -/
theorem arun_rate_limited_short_circuits
    (env : Env) (token : String) (kwargs : List (String × PyVal)) (msg : String)
    (hrl : env.check_rate_limit (Option.map AgentContext.agentId env.context)
      = Except.ok (true, msg)) :
    _arunT env token kwargs = ({ articles := [], error := some msg }, []) := by
  unfold _arunT
  rw [arunBody_limited env token msg hrl]
  simp [catchOut]

/-- Environment whose limiter reports limited. -/
def envLimited : Env :=
  { context := some { agentId := "agent-1", config := [("api_key", PyVal.str "k")] },
    check_rate_limit := fun _ => Except.ok (true, "Rate limit exceeded"),
    fetch_news := fun _ _ _ => Except.ok fixtureResponse,
    now := 1700000000 }

/-- Witness for C2 at a concrete limited environment. -/
theorem arun_rate_limited_short_circuits_witness :
    _arunT envLimited "BTC" [] =
      ({ articles := [], error := some "Rate limit exceeded" }, []) :=
  arun_rate_limited_short_circuits envLimited "BTC" [] "Rate limit exceeded" rfl

/-- Environment whose remote fetch delivers the bare integer 0. -/
def envIntResponse : Env :=
  { context := some { agentId := "agent-1", config := [("api_key", PyVal.str "k")] },
    check_rate_limit := fun _ => Except.ok (false, ""),
    fetch_news := fun _ _ _ => Except.ok (PyVal.int 0),
    now := 1700000000 }

/-- C3 counterexample: the integer response 0 lacks a Data field, yet
the returned error is the TypeError text of the membership test, not the
fixed format message the claim requires for every such invocation. -/
theorem arun_no_data_fixed_message_counterexample :
    _arun envIntResponse "BTC" [] =
      { articles := [],
        error := some "argument of type \x27int\x27 is not iterable" } ∧
    ({ articles := [],
       error := some "argument of type \x27int\x27 is not iterable" }
        : CryptoCompareFetchNewsOutput) ≠
      { articles := [], error := some "Invalid response format from CryptoCompare API" } :=
  ⟨rfl, by decide⟩

/-- C3 amended: for every invocation in which the remote response is a
JSON object (dict) lacking the top-level Data key, the result is the
fixed, non-parameterized format-error message. -/
theorem arun_dict_missing_data_fixed_message
    (env : Env) (token : String) (kwargs : List (String × PyVal))
    (ctx : AgentContext) (m : String) (kvs : List (String × PyVal))
    (hctx : env.context = some ctx)
    (hrl : env.check_rate_limit (some ctx.agentId) = Except.ok (false, m))
    (hfetch : env.fetch_news ((List.lookup "api_key" ctx.config).getD PyVal.none) token env.now
      = Except.ok (PyVal.dict kvs))
    (hdata : List.lookup "Data" kvs = Option.none) :
    _arun env token kwargs =
      { articles := [], error := some "Invalid response format from CryptoCompare API" } := by
  have hb := arunBody_fetch env token ctx m hctx hrl
  unfold _arun _arunT
  rw [hb]
  simp [Except.bind, hfetch, processResult_dict_nodata kvs hdata, catchOut]

/-- Environment whose remote fetch delivers a dict without a Data key. -/
def envNoData : Env :=
  { context := some { agentId := "agent-1", config := [("api_key", PyVal.str "k")] },
    check_rate_limit := fun _ => Except.ok (false, ""),
    fetch_news := fun _ _ _ => Except.ok (PyVal.dict [("Message", PyVal.str "unavailable")]),
    now := 1700000000 }

/-- Witness for the amended C3 at a concrete dict response without
Data. -/
theorem arun_dict_missing_data_fixed_message_witness :
    _arun envNoData "BTC" [] =
      { articles := [], error := some "Invalid response format from CryptoCompare API" } :=
  arun_dict_missing_data_fixed_message envNoData "BTC" []
    { agentId := "agent-1", config := [("api_key", PyVal.str "k")] } ""
    [("Message", PyVal.str "unavailable")] rfl rfl rfl rfl

/-- C4: the categories of a mapped article are the raw string cut at
the pipe delimiter: the three-part example maps to the three category
names, and the empty raw string maps to the one-element sequence holding
a single empty string. -/
theorem categories_split_examples :
    (parseArticle newsItem1).map NewsArticle.categories =
      Except.ok ["Blockchain", "Mining", "Trading"] ∧
    (parseArticle newsItem3).map NewsArticle.categories = Except.ok [""] :=
  ⟨rfl, rfl⟩

/-- C5: an exception raised anywhere inside the try block never
propagates to the caller: the call returns the well-formed output whose
error is exactly the text of the exception. -/
theorem arun_converts_exceptions
    (env : Env) (token : String) (kwargs : List (String × PyVal))
    (e : PyExc) (t : List FetchCall)
    (h : _arunBody env token = (Except.error e, t)) :
    _arun env token kwargs = { articles := [], error := some e.msg } := by
  unfold _arun _arunT
  rw [h]
  simp [catchOut]

/-- Environment whose remote fetch raises a connection error. -/
def envRaise : Env :=
  { context := some { agentId := "agent-1", config := [("api_key", PyVal.str "k")] },
    check_rate_limit := fun _ => Except.ok (false, ""),
    fetch_news := fun _ _ _ => Except.error { msg := "Connection refused" },
    now := 1700000000 }

/-- Witness for C5 at a concrete raising fetch. -/
theorem arun_converts_exceptions_witness :
    _arun envRaise "BTC" [] = { articles := [], error := some "Connection refused" } :=
  arun_converts_exceptions envRaise "BTC" []
    { msg := "Connection refused" }
    [{ api_key := PyVal.str "k", token := "BTC", timestamp := 1700000000 }] rfl

/-- C6: when the mapping of any single element of the Data collection
raises, the whole call fails: the output carries no articles at all and
an error, never a partial prefix of the elements mapped before the
failing one. -/
theorem arun_no_partial_articles
    (env : Env) (token : String) (kwargs : List (String × PyVal))
    (ctx : AgentContext) (m : String) (kvs : List (String × PyVal))
    (items : List PyVal) (a : PyVal) (e : PyExc)
    (hctx : env.context = some ctx)
    (hrl : env.check_rate_limit (some ctx.agentId) = Except.ok (false, m))
    (hfetch : env.fetch_news ((List.lookup "api_key" ctx.config).getD PyVal.none) token env.now
      = Except.ok (PyVal.dict kvs))
    (hdata : List.lookup "Data" kvs = some (PyVal.list items))
    (hmem : a ∈ items) (hfail : parseArticle a = Except.error e) :
    (_arun env token kwargs).articles = [] ∧
    ((_arun env token kwargs).error).isSome = true := by
  obtain ⟨e2, hm⟩ := mapArticles_error_of_mem items a e hmem hfail
  have hb := arunBody_fetch env token ctx m hctx hrl
  have hout : _arun env token kwargs = { articles := [], error := some e2.msg } := by
    unfold _arun _arunT
    rw [hb]
    simp [Except.bind, hfetch, processResult_dict_err kvs items e2 hdata hm, catchOut]
  rw [hout]
  exact ⟨rfl, rfl⟩

/-- Raw element without a title key: its mapping raises KeyError. -/
def badItem : PyVal :=
  PyVal.dict
    [("id", PyVal.int 9), ("body", PyVal.str "B"), ("published_on", PyVal.int 1),
     ("url", PyVal.str "u"), ("source", PyVal.str "s"), ("categories", PyVal.str "X")]

/-- Environment whose response holds one good element and one bad one. -/
def envPartial : Env :=
  { context := some { agentId := "agent-1", config := [("api_key", PyVal.str "k")] },
    check_rate_limit := fun _ => Except.ok (false, ""),
    fetch_news := fun _ _ _ => Except.ok (PyVal.dict [("Data", PyVal.list [newsItem1, badItem])]),
    now := 1700000000 }

/-- Witness for C6: the element lacking a title key fails the whole
call, with no partial article list. -/
theorem arun_no_partial_articles_witness :
    (_arun envPartial "BTC" []).articles = [] ∧
    ((_arun envPartial "BTC" []).error).isSome = true :=
  arun_no_partial_articles envPartial "BTC" []
    { agentId := "agent-1", config := [("api_key", PyVal.str "k")] } ""
    [("Data", PyVal.list [newsItem1, badItem])]
    [newsItem1, badItem] badItem { msg := "\x27title\x27" }
    rfl rfl rfl rfl (List.Mem.tail _ (List.Mem.head _)) rfl

/-- Environment with an absent context and an admitting limiter. -/
def envNoContext : Env :=
  { context := Option.none,
    check_rate_limit := fun _ => Except.ok (false, ""),
    fetch_news := fun _ _ _ => Except.ok fixtureResponse,
    now := 1700000000 }

/-- C7, evaluated at the failing input: with the agent identity absent
the limiter is consulted with the null identity and admits the call, but
_arun then fails on the unconditional context dereference of
fetch_news.py line 83 instead of proceeding: the output carries the
AttributeError text and the fetch trace is empty, although a well-formed
response was available. -/
theorem arun_absent_identity_does_not_proceed :
    _arunT envNoContext "BTC" [] =
      ({ articles := [],
         error := some "\x27NoneType\x27 object has no attribute \x27config\x27" }, []) := rfl

/-- C8: every call recorded against the remote fetch carries the Unix
time read at the invocation as its timestamp, whatever the token and the
extra keyword arguments were. -/
theorem fetch_timestamp_is_now
    (env : Env) (token : String) (kwargs : List (String × PyVal)) (c : FetchCall)
    (hc : c ∈ (_arunT env token kwargs).2) : c.timestamp = env.now := by
  have hc2 : c ∈ (_arunBody env token).2 := hc
  simp only [_arunBody] at hc2
  split at hc2
  · simp at hc2
  · split at hc2
    · simp at hc2
    · split at hc2
      · simp at hc2
      · split at hc2 <;>
          · simp only [List.mem_singleton] at hc2
            subst hc2
            rfl

/-- Witness for C8: the single fetch call of the fixture environment
carries its current time as timestamp. -/
theorem fetch_timestamp_is_now_witness :
    ({ api_key := PyVal.str "k", token := "BTC", timestamp := 1700000000 } : FetchCall).timestamp
      = envOk.now :=
  fetch_timestamp_is_now envOk "BTC" []
    { api_key := PyVal.str "k", token := "BTC", timestamp := 1700000000 }
    (by
      rw [show (_arunT envOk "BTC" []).2 =
        [({ api_key := PyVal.str "k", token := "BTC", timestamp := 1700000000 } : FetchCall)]
        from rfl]
      exact List.Mem.head [])

/-- C9: the mapping from provider data to the output is deterministic
and stateless: two admitted invocations that receive the same provider
response produce the same output, whatever their identities, keys,
tokens, clocks and extra arguments are. -/
theorem arun_response_determines_output
    (env1 env2 : Env) (token1 token2 : String)
    (kwargs1 kwargs2 : List (String × PyVal))
    (ctx1 ctx2 : AgentContext) (m1 m2 : String) (result : PyVal)
    (hctx1 : env1.context = some ctx1)
    (hctx2 : env2.context = some ctx2)
    (hrl1 : env1.check_rate_limit (some ctx1.agentId) = Except.ok (false, m1))
    (hrl2 : env2.check_rate_limit (some ctx2.agentId) = Except.ok (false, m2))
    (hf1 : env1.fetch_news ((List.lookup "api_key" ctx1.config).getD PyVal.none) token1 env1.now
      = Except.ok result)
    (hf2 : env2.fetch_news ((List.lookup "api_key" ctx2.config).getD PyVal.none) token2 env2.now
      = Except.ok result) :
    _arun env1 token1 kwargs1 = _arun env2 token2 kwargs2 := by
  have hb1 := arunBody_fetch env1 token1 ctx1 m1 hctx1 hrl1
  have hb2 := arunBody_fetch env2 token2 ctx2 m2 hctx2 hrl2
  unfold _arun _arunT
  rw [hb1, hb2, hf1, hf2]

/-- Environment differing from envOk in identity, key, limiter text and
clock, but receiving the same fixture response. -/
def envOkAlt : Env :=
  { context := some
      { agentId := "agent-2",
        config := [("api_key", PyVal.str "other"), ("extra", PyVal.int 3)] },
    check_rate_limit := fun _ => Except.ok (false, "different limiter text"),
    fetch_news := fun _ _ _ => Except.ok fixtureResponse,
    now := 1800000000 }

/-- Witness for C9: two quite different admitted invocations that both
receive the three-article fixture agree on the output. -/
theorem arun_response_determines_output_witness :
    _arun envOk "BTC" [] = _arun envOkAlt "ETH" [("user", PyVal.str "u")] :=
  arun_response_determines_output envOk envOkAlt "BTC" "ETH"
    [] [("user", PyVal.str "u")]
    { agentId := "agent-1", config := [("api_key", PyVal.str "k")] }
    { agentId := "agent-2", config := [("api_key", PyVal.str "other"), ("extra", PyVal.int 3)] }
    "" "different limiter text" fixtureResponse
    rfl rfl rfl rfl rfl rfl

/-- A successfully processed response yields an output with no articles
or with no error. -/
theorem processResult_ok_branch (r : PyVal) (out : CryptoCompareFetchNewsOutput)
    (h : processResult r = Except.ok out) :
    out.articles = [] ∨ out.error = Option.none := by
  unfold processResult at h
  split at h
  · exact absurd h (by simp)
  · simp only [Except.ok.injEq] at h
    subst h
    exact Or.inl rfl
  · split at h
    · exact absurd h (by simp)
    · split at h
      · exact absurd h (by simp)
      · split at h
        · exact absurd h (by simp)
        · simp only [Except.ok.injEq] at h
          subst h
          exact Or.inr rfl

/-- A body that returns normally yields an output with no articles or
with no error. -/
theorem arunBody_ok_branch (env : Env) (token : String)
    (out : CryptoCompareFetchNewsOutput) (t : List FetchCall)
    (h : _arunBody env token = (Except.ok out, t)) :
    out.articles = [] ∨ out.error = Option.none := by
  simp only [_arunBody] at h
  split at h
  · simp at h
  · split at h
    · simp only [Prod.mk.injEq, Except.ok.injEq] at h
      obtain ⟨h1, -⟩ := h
      subst h1
      exact Or.inl rfl
    · split at h
      · simp at h
      · split at h
        · simp at h
        · simp only [Prod.mk.injEq] at h
          exact processResult_ok_branch _ out h.1

/-- C10: every output of _arun populates at most one branch of the
result record: the articles list is empty or the error field is
absent. -/
theorem arun_at_most_one_branch (env : Env) (token : String)
    (kwargs : List (String × PyVal)) :
    (_arun env token kwargs).articles = [] ∨ (_arun env token kwargs).error = Option.none := by
  unfold _arun _arunT
  cases hb : (_arunBody env token).1 with
  | error e =>
      exact Or.inl rfl
  | ok out =>
      have hpair : _arunBody env token = (Except.ok out, (_arunBody env token).2) := by
        rw [← hb]
      exact arunBody_ok_branch env token out (_arunBody env token).2 hpair
